import Mathlib

/-!
# Verification of the psmx completion-queue subsystem (prov/psm/src/psmx_cq.c)

A shallow embedding of the completion-queue (CQ) code of the psm libfabric
provider, together with proofs checking the natural-language specification
against it.  Pointers are modelled as natural numbers, maps as functions
`Nat → _`, the MQ completion stream as an explicit list, and undefined
behaviour (null-pointer dereference) as an explicit `fault` outcome.
-/

set_option autoImplicit false

namespace Psmx

/-! ### Constants

Numeric values of the libfabric error codes, commands and flags come from
headers that are not part of this file; only their distinctness and sign
matter for the properties below. -/

def FI_EAVAIL : Int := 259
def FI_ETOOSMALL : Int := 275
def FI_EINVAL : Int := 22
def ENOMEM : Int := 12
def ENOSYS : Int := 38
def ENODATA : Int := 61
def FI_GETWAIT : Nat := 4
def FI_MULTI_RECV : Nat := 65536
def PSMX_MSG_BIT : Nat := 2 ^ 63
def FI_ADDR_UNSPEC : Nat := 2 ^ 64 - 1

/-- size of `struct fi_cq_err_entry` (`sizeof *buf` in `psmx_cq_readerr`). -/
def fi_cq_err_entry_size : Nat := 72

/-! ### Completion-record shapes -/

/-- The four non-error CQ entry formats (`FI_CQ_FORMAT_*`). -/
inductive CqFormat where
  | context
  | msg
  | data
  | tagged
deriving DecidableEq, Repr

/-- Fixed entry size per format, as computed in `psmx_cq_open` from the
`sizeof` of the corresponding `fi_cq_*_entry` struct. -/
def entrySize : CqFormat → Nat
  | .context => 8
  | .msg => 24
  | .data => 40
  | .tagged => 48

/-- Contents of the `cqe` union of a `struct psmx_cq_event`.  The five
structured constructors mirror the five entry shapes; `raw` holds the
verbatim bytes copied in by `psmx_cq_write`'s `memcpy`.  Fields a code path
leaves unassigned are modelled as `0` (the record pool is abstracted as
handing out zero-initialised records). -/
inductive Cqe where
  | context (op_context : Nat)
  | msg (op_context flags len : Nat)
  | data (op_context buf flags len dat : Nat)
  | tagged (op_context buf flags len dat tag : Nat)
  | err (op_context : Nat) (err : Int) (prov_errno dat tag olen : Nat)
  | raw (bytes : List Nat)
deriving DecidableEq, Repr

/-- `struct psmx_cq_event`: the `error` flag, the `cqe` union and the
`source` tag used for source-address resolution. -/
structure CqEvent where
  error : Bool
  cqe : Cqe
  source : Nat
deriving DecidableEq, Repr

/-! ### Event queue (`struct psmx_cq_event_queue`)

The singly linked head/tail list is modelled by the list of its nodes from
head to tail; the head pointer is the list's `head?` and the tail pointer
its `getLast?` (both `none` exactly when the list is empty). -/

structure EventQueue where
  elems : List CqEvent
deriving DecidableEq, Repr

def EventQueue.empty : EventQueue := ⟨[]⟩

/-- `psmx_cq_enqueue_event`: append at tail; the branch mirrors the C test
of the tail pointer. -/
def psmx_cq_enqueue_event (ceq : EventQueue) (event : CqEvent) : EventQueue :=
  if (ceq.elems.getLast?).isSome then
    ⟨ceq.elems ++ [event]⟩
  else
    ⟨[event]⟩

/-- `psmx_cq_dequeue_event`: pop the head; returns `none` when the head
pointer is null.  When the new head is null the C code also nulls the tail
pointer, which in the list model is automatic. -/
def psmx_cq_dequeue_event (ceq : EventQueue) : Option (CqEvent × EventQueue) :=
  match ceq.elems with
  | [] => none
  | e :: rest => some (e, ⟨rest⟩)

/-! ### The CQ, endpoint, memory-region and context state -/

/-- `struct psmx_fid_cq`: format, fixed entry size, the event FIFO, the
single pending-error slot and the progress-interleave flip flag.  The free
list (record pool) is abstracted: acquiring a record yields a
zero-initialised one, releasing discards it. -/
structure CqState where
  format : CqFormat
  entry_size : Nat
  event_queue : EventQueue
  pending_error : Option CqEvent
  poll_am_before_mq : Bool
deriving DecidableEq, Repr

/-- `struct psmx_fid_ep` fields touched by the progress driver. -/
structure EpState where
  pending_sends : Int
  pending_writes : Int
  pending_reads : Int
  send_cq : Option Nat
  recv_cq : Option Nat
  send_cntr : Option Nat
  recv_cntr : Option Nat
  write_cntr : Option Nat
  read_cntr : Option Nat
  send_cntr_event_flag : Bool
  recv_cntr_event_flag : Bool
  write_cntr_event_flag : Bool
  read_cntr_event_flag : Bool
deriving DecidableEq, Repr

/-- `struct psmx_fid_mr` fields touched by one-sided completion routing. -/
structure MrState where
  cq : Option Nat
  cntr : Option Nat
deriving DecidableEq, Repr

/-- `struct psmx_multi_recv`: the multi-recv tracking record (cursor). -/
structure MultiRecvReq where
  tag : Nat
  tagsel : Nat
  flag : Nat
  buf : Nat
  offset : Nat
  len : Nat
  min_buf_size : Nat
  context : Nat
deriving DecidableEq, Repr

/-- The `PSMX_*_CONTEXT` kind tags stored in an operation's `fi_context`. -/
inductive CtxtType where
  | nocomp_send
  | nocomp_recv
  | nocomp_write
  | nocomp_read
  | inject
  | inject_write
  | send
  | recv
  | multi_recv
  | read
  | write
  | remote_write
  | remote_read
deriving DecidableEq, Repr

/-- An operation's `struct fi_context` together with the data reachable
from it: `typ` is `PSMX_CTXT_TYPE`, `ep` is `PSMX_CTXT_EP`, `user` is
`PSMX_CTXT_USER` (user buffer, multi-recv request pointer, or memory-region
pointer, depending on the kind), `mreq` the pointed-to multi-recv record
(meaningful only for `multi_recv`), `wdata` the containing am-request's
`write.data` (meaningful only for `remote_write`), and `psm_req` the
`PSMX_CTXT_REQ` slot. -/
structure FiContext where
  typ : CtxtType
  ep : Nat
  user : Nat
  mreq : MultiRecvReq
  wdata : Nat
  psm_req : Nat
deriving DecidableEq, Repr

/-- `psm_mq_status_t` as consumed by this file: error code, byte count,
message length, tag, and the `fi_context` pointer (modelled as an index
into the context map). -/
structure PsmStatus where
  error_code : Nat
  nbytes : Nat
  msg_length : Nat
  msg_tag : Nat
  context : Nat
deriving DecidableEq, Repr

/-- One `psm_mq_ipeek` outcome: a ready completion (with the status
`psm_mq_test` then reports) or a fatal MQ error code.  The empty stream
models `PSM_MQ_NO_COMPLETIONS`. -/
inductive MqOutcome where
  | ok (status : PsmStatus)
  | fatal (code : Nat)
deriving DecidableEq, Repr

/-- A receive re-armed through `psm_mq_irecv` by the multi-recv
continuation. -/
structure PostedRecv where
  tag : Nat
  tagsel : Nat
  flag : Nat
  buf : Nat
  len : Nat
  context : Nat
deriving DecidableEq, Repr

/-- The domain-wide state the progress driver reads and writes (the MQ
stream is passed separately so the drain loop can recurse on it).
`posted` logs re-armed receives, `freed` logs `free()`d records. -/
structure PollState where
  ctxts : Nat → FiContext
  eps : Nat → EpState
  cqs : Nat → CqState
  cntrs : Nat → Nat
  mrs : Nat → MrState
  reserved_tag_bits : Nat
  posted : List PostedRecv
  freed : List Nat

/-- Pointwise update of a `Nat`-indexed map. -/
def upd {α : Type} (f : Nat → α) (i : Nat) (v : α) : Nat → α :=
  fun j => if j = i then v else f j

/-- `Modelled from the spec: psmx_errno (defined outside this file) maps a
nonzero PSM error code to "a negative code"; modelled as negation.` -/
def psmx_errno (e : Nat) : Int := -(e : Int)

/-! ### Event creation -/

/-- `psmx_cq_create_event`: build a record with explicitly supplied fields.
The free-list acquisition is abstracted as a fresh zero-initialised record;
`error = !!err`, and the error shape sets `prov_errno = 0`. -/
def psmx_cq_create_event (cq : CqState) (op_context buf : Nat) (flags : Nat)
    (len : Nat) (data : Nat) (tag : Nat) (olen : Nat) (err : Int) : CqEvent :=
  if err ≠ 0 then
    { error := true
      cqe := .err op_context (-err) 0 data tag olen
      source := 0 }
  else
    match cq.format with
    | .context => { error := false, cqe := .context op_context, source := 0 }
    | .msg => { error := false, cqe := .msg op_context flags len, source := 0 }
    | .data => { error := false, cqe := .data op_context buf flags len data, source := 0 }
    | .tagged => { error := false, cqe := .tagged op_context buf flags len data tag, source := 0 }

/-- `psmx_cq_create_event_from_status`: build a record from a PSM status.
`op_context`/`buf`/`is_recv` are derived from the context kind; for the
error shape `err = -psmx_errno(error_code)` and `olen = msg_length -
nbytes`; for the data/tagged shapes the immediate-data field is only
overwritten when `data` is nonzero (zero baseline otherwise), and the msg
shape leaves `flags` at the baseline. -/
def psmx_cq_create_event_from_status (cq : CqState) (ctxts : Nat → FiContext)
    (status : PsmStatus) (data : Nat) : CqEvent :=
  let fi_context := ctxts status.context
  let op_context : Nat :=
    match fi_context.typ with
    | .send => status.context
    | .recv => status.context
    | .multi_recv => status.context
    | _ => fi_context.user
  let buf : Nat :=
    match fi_context.typ with
    | .send => fi_context.user
    | .recv => fi_context.user
    | .multi_recv => fi_context.mreq.buf + fi_context.mreq.offset
    | _ => 0
  let is_recv : Bool :=
    match fi_context.typ with
    | .recv => true
    | .multi_recv => true
    | _ => false
  let source : Nat := if is_recv then status.msg_tag else 0
  if status.error_code ≠ 0 then
    { error := true
      cqe := .err op_context (-(psmx_errno status.error_code))
          status.error_code (if data ≠ 0 then data else 0) status.msg_tag
          (status.msg_length - status.nbytes)
      source := source }
  else
    match cq.format with
    | .context =>
        { error := false, cqe := .context op_context, source := source }
    | .msg =>
        { error := false, cqe := .msg op_context 0 status.nbytes, source := source }
    | .data =>
        { error := false
          cqe := .data op_context buf 0 status.nbytes (if data ≠ 0 then data else 0)
          source := source }
    | .tagged =>
        { error := false
          cqe := .tagged op_context buf 0 status.nbytes (if data ≠ 0 then data else 0)
              status.msg_tag
          source := source }

example : psmx_cq_dequeue_event (psmx_cq_enqueue_event EventQueue.empty
    ⟨false, .context 7, 0⟩) = some (⟨false, .context 7, 0⟩, EventQueue.empty) := by
  decide

/-! ### The progress driver `psmx_cq_poll_mq` -/

/-- Outcome of processing one ready MQ completion inside the drain loop. -/
inductive StepOutcome where
  | ret (code : Int) (st : PollState)
  | next (st : PollState)
  | fault (st : PollState)

/-- Result of a whole `psmx_cq_poll_mq` call: a return code together with
the not-yet-drained tail of the MQ stream, or a crash (`fault`) from
undefined behaviour. -/
inductive PollResult where
  | ok (code : Int) (mq : List MqOutcome) (st : PollState)
  | fault (st : PollState)

/-- Enqueue `event` onto CQ `c` of the state. -/
def enqueueTo (st : PollState) (c : Nat) (event : CqEvent) : PollState :=
  { st with
      cqs := upd st.cqs c
        { st.cqs c with
            event_queue := psmx_cq_enqueue_event (st.cqs c).event_queue event } }

/-- `tmp->cntr.ops->add(&tmp->cntr, 1)` on a possibly-null `tmp` pointer:
incrementing through a null pointer is undefined behaviour (`none`). -/
def cntrAdd (tmp : Option Nat) (st : PollState) : Option PollState :=
  match tmp with
  | some i => some { st with cntrs := upd st.cntrs i (st.cntrs i + 1) }
  | none => none

/-- Lines 364–415 of `psmx_cq_poll_mq`: after the classification switch,
build/enqueue the event for `tmp_cq`, bump `tmp_cntr`, run the multi-recv
continuation, and decide whether to return 1 or keep draining.  The
`psm_mq_irecv` re-arm is modelled as always returning `PSM_OK` (its error
branch, which would return `psmx_errno(err)`, is not exercised by any
property below). -/
def pollAfterSwitch (cq : Option Nat) (st : PollState) (status : PsmStatus)
    (tmp_cq tmp_cntr : Option Nat) (multi_recv : Bool) : StepOutcome :=
  let st1 :=
    match tmp_cq with
    | some c =>
        enqueueTo st c (psmx_cq_create_event_from_status (st.cqs c) st.ctxts status 0)
    | none => st
  let st2 :=
    match cntrAdd tmp_cntr st1 with
    | some s => s
    | none => st1
  let st3 :=
    if multi_recv then
      let fi_context := st2.ctxts status.context
      let req : MultiRecvReq := { fi_context.mreq with
                     offset := fi_context.mreq.offset + status.nbytes }
      if req.offset + req.min_buf_size ≤ req.len then
        let p : PostedRecv :=
          ⟨req.tag, req.tagsel, req.flag, req.buf + req.offset,
           req.len - req.offset, status.context⟩
        { st2 with
            ctxts := upd st2.ctxts status.context
              { fi_context with mreq := req, psm_req := st2.posted.length },
            posted := st2.posted ++ [p] }
      else
        let st2a := { st2 with
            ctxts := upd st2.ctxts status.context { fi_context with mreq := req } }
        let st2b :=
          match tmp_cq with
          | some c =>
              enqueueTo st2a c (psmx_cq_create_event (st2a.cqs c) req.context
                req.buf FI_MULTI_RECV req.len (req.len - req.offset) 0 0 0)
          | none => st2a
        { st2b with freed := st2b.freed ++ [status.context] }
    else st2
  if cq.isNone || tmp_cq == cq then .ret 1 st3 else .next st3

/-- One iteration of the `psmx_cq_poll_mq` drain loop for a ready
completion: the classification switch of lines 254–362 followed by
`pollAfterSwitch`.  The two one-sided cases run entirely inside the switch:
they route through the target memory region, and their counter bump passes
the still-null `tmp_cntr` to the add operation (`cntrAdd none`), which is a
null-pointer dereference. -/
def psmx_cq_poll_mq_step (cq : Option Nat) (st : PollState)
    (status : PsmStatus) : StepOutcome :=
  let fi_context := st.ctxts status.context
  let tmp_ep := fi_context.ep
  let ep := st.eps tmp_ep
  match fi_context.typ with
  | .nocomp_send =>
      let st := { st with
          eps := upd st.eps tmp_ep
            { ep with pending_sends := ep.pending_sends - 1 } }
      pollAfterSwitch cq st status none
        (if ep.send_cntr_event_flag then none else ep.send_cntr) false
  | .nocomp_recv =>
      pollAfterSwitch cq st status none
        (if ep.recv_cntr_event_flag then none else ep.recv_cntr) false
  | .nocomp_write =>
      let st := { st with
          eps := upd st.eps tmp_ep
            { ep with pending_writes := ep.pending_writes - 1 } }
      pollAfterSwitch cq st status none
        (if ep.write_cntr_event_flag then none else ep.write_cntr) false
  | .nocomp_read =>
      let st := { st with
          eps := upd st.eps tmp_ep
            { ep with pending_reads := ep.pending_reads - 1 } }
      pollAfterSwitch cq st status none
        (if ep.read_cntr_event_flag then none else ep.read_cntr) false
  | .inject =>
      let st := { st with
          eps := upd st.eps tmp_ep
            { ep with pending_sends := ep.pending_sends - 1 },
          freed := st.freed ++ [status.context] }
      pollAfterSwitch cq st status none
        (if ep.send_cntr_event_flag then none else ep.send_cntr) false
  | .inject_write =>
      let st := { st with
          eps := upd st.eps tmp_ep
            { ep with pending_writes := ep.pending_writes - 1 },
          freed := st.freed ++ [status.context] }
      pollAfterSwitch cq st status none
        (if ep.write_cntr_event_flag then none else ep.write_cntr) false
  | .send =>
      let st := { st with
          eps := upd st.eps tmp_ep
            { ep with pending_sends := ep.pending_sends - 1 } }
      pollAfterSwitch cq st status ep.send_cq ep.send_cntr false
  | .recv =>
      pollAfterSwitch cq st status ep.recv_cq ep.recv_cntr false
  | .multi_recv =>
      pollAfterSwitch cq st status ep.recv_cq ep.recv_cntr true
  | .read =>
      let st := { st with
          eps := upd st.eps tmp_ep
            { ep with pending_reads := ep.pending_reads - 1 } }
      pollAfterSwitch cq st status ep.send_cq ep.read_cntr false
  | .write =>
      let st := { st with
          eps := upd st.eps tmp_ep
            { ep with pending_writes := ep.pending_writes - 1 } }
      pollAfterSwitch cq st status ep.send_cq ep.write_cntr false
  | .remote_write =>
      let mr := st.mrs fi_context.user
      let st1 :=
        match mr.cq with
        | some c =>
            enqueueTo st c (psmx_cq_create_event_from_status (st.cqs c)
              st.ctxts status fi_context.wdata)
        | none => st
      if mr.cntr.isSome then
        match cntrAdd none st1 with
        | some s => if cq.isNone || mr.cq == cq then .ret 1 s else .next s
        | none => .fault st1
      else
        if cq.isNone || mr.cq == cq then .ret 1 st1 else .next st1
  | .remote_read =>
      let mr := st.mrs fi_context.user
      let st1 :=
        match mr.cq with
        | some c =>
            enqueueTo st c (psmx_cq_create_event_from_status (st.cqs c)
              st.ctxts status 0)
        | none => st
      if mr.cntr.isSome then
        match cntrAdd none st1 with
        | some s => if cq.isNone || mr.cq == cq then .ret 1 s else .next s
        | none => .fault st1
      else
        if cq.isNone || mr.cq == cq then .ret 1 st1 else .next st1

/-- `psmx_cq_poll_mq`: drain the MQ stream.  Returns 0 on
`PSM_MQ_NO_COMPLETIONS` (empty stream), `psmx_errno(err)` on a fatal
`psm_mq_ipeek` error (the stream is not consumed), and otherwise processes
ready completions until a step returns. -/
def psmx_cq_poll_mq (cq : Option Nat) (mq : List MqOutcome)
    (st : PollState) : PollResult :=
  match mq with
  | [] => .ok 0 [] st
  | .fatal e :: rest => .ok (psmx_errno e) (.fatal e :: rest) st
  | .ok status :: rest =>
      match psmx_cq_poll_mq_step cq st status with
      | .ret code st1 => .ok code rest st1
      | .fault st1 => .fault st1
      | .next st1 => psmx_cq_poll_mq cq rest st1

/-- The CQ a drained completion is routed to by the classification switch
of `psmx_cq_poll_mq` (its `tmp_cq`, or `mr->cq` for the one-sided cases):
the endpoint's send CQ for send/read/write kinds, its receive CQ for
recv/multi-recv kinds, the target memory region's CQ for one-sided kinds,
and none for the no-completion and inject kinds. -/
def routedCq (st : PollState) (status : PsmStatus) : Option Nat :=
  let fi_context := st.ctxts status.context
  let ep := st.eps fi_context.ep
  match fi_context.typ with
  | .send => ep.send_cq
  | .recv => ep.recv_cq
  | .multi_recv => ep.recv_cq
  | .read => ep.send_cq
  | .write => ep.send_cq
  | .remote_write => (st.mrs fi_context.user).cq
  | .remote_read => (st.mrs fi_context.user).cq
  | _ => none

/-- Whether draining the completion crashes the driver: true exactly for a
one-sided completion whose target memory region has a bound counter — the
null-`tmp_cntr` dereference of psmx_cq.c:337/357. -/
def stepFaults (st : PollState) (status : PsmStatus) : Bool :=
  match (st.ctxts status.context).typ with
  | .remote_write => ((st.mrs (st.ctxts status.context).user).cntr).isSome
  | .remote_read => ((st.mrs (st.ctxts status.context).user).cntr).isSome
  | _ => false

/-! ### Source-address resolution -/

/-- `Modelled from the spec: the domain's address-translation service
(psmx_epid_to_epaddr, defined outside this file) maps an "opaque id" to an
"address handle", fallibly; modelled as always succeeding with the id
itself.` -/
def psmx_epid_to_epaddr (epid : Nat) : Except Int Nat := .ok epid

/-- `psmx_cq_get_event_src_addr`: returns the C function's return code
together with the value it stored through `src_addr` (when any).  A `none`
`want_src` models a null `src_addr` argument. -/
def psmx_cq_get_event_src_addr (st : PollState) (event : CqEvent)
    (want_src : Bool) : Int × Option Nat :=
  if ¬want_src then (0, none)
  else if Nat.land st.reserved_tag_bits PSMX_MSG_BIT ≠ 0 ∧
      Nat.land event.source PSMX_MSG_BIT ≠ 0 then
    match psmx_epid_to_epaddr (Nat.land event.source (PSMX_MSG_BIT - 1)) with
    | .ok a => (0, some a)
    | .error e => (e, none)
  else (-ENODATA, none)

/-! ### The read / write / read-error API -/

/-- `Modelled from the spec: the active-message progress source
(psmx_am_progress, defined outside this file) is the second of the "two
progress sources" a read drains; modelled as an idle source that leaves
the state unchanged.` -/
def psmx_am_progress (st : PollState) : PollState := st

/-- Result of a `psmx_cq_readfrom` call: the return value, the remaining
MQ stream, the new state, the entry content copied to the caller's buffer
(when any) and the source address stored through `src_addr` (when any) —
or a crash propagated from the progress driver. -/
inductive ReadResult where
  | fault (st : PollState)
  | ok (ret : Int) (mq : List MqOutcome) (st : PollState)
      (copied : Option Cqe) (src_addr : Option Nat)

/-- `psmx_cq_readfrom`: flip the progress-interleave flag and run the two
progress sources in the resulting order; then fail with `-FI_EAVAIL` if an
error is pending, `-FI_ETOOSMALL` on short capacity, `-FI_EINVAL` on a
null buffer; otherwise dequeue one record: a non-error record is copied
out (`entry_size` bytes), its source address resolved (`FI_ADDR_UNSPEC` on
failure) and the record recycled to the pool (abstracted); an error record
is parked in the pending-error slot with `-FI_EAVAIL`; an empty queue
yields 0. -/
def psmx_cq_readfrom (cqId : Nat) (mq : List MqOutcome) (st : PollState)
    (len : Nat) (buf_null : Bool) (want_src : Bool) : ReadResult :=
  let st0 := { st with
      cqs := upd st.cqs cqId
        { st.cqs cqId with
            poll_am_before_mq := !(st.cqs cqId).poll_am_before_mq } }
  let st0 := if (st0.cqs cqId).poll_am_before_mq then psmx_am_progress st0 else st0
  match psmx_cq_poll_mq (some cqId) mq st0 with
  | .fault st1 => .fault st1
  | .ok _ mq1 st1 =>
    let st1 := if !(st1.cqs cqId).poll_am_before_mq then psmx_am_progress st1 else st1
    let cq := st1.cqs cqId
    if cq.pending_error.isSome then .ok (-FI_EAVAIL) mq1 st1 none none
    else if len < cq.entry_size then .ok (-FI_ETOOSMALL) mq1 st1 none none
    else if buf_null then .ok (-FI_EINVAL) mq1 st1 none none
    else
      match psmx_cq_dequeue_event cq.event_queue with
      | some (event, q1) =>
        if !event.error then
          let st2 := { st1 with
              cqs := upd st1.cqs cqId { cq with event_queue := q1 } }
          let ra := psmx_cq_get_event_src_addr st2 event want_src
          let src := if want_src then
              (if ra.1 ≠ 0 then some FI_ADDR_UNSPEC else ra.2) else none
          .ok (cq.entry_size : Int) mq1 st2 (some event.cqe) src
        else
          let st2 := { st1 with
              cqs := upd st1.cqs cqId
                { cq with event_queue := q1, pending_error := some event } }
          .ok (-FI_EAVAIL) mq1 st2 none none
      | none => .ok 0 mq1 st1 none none

/-- `psmx_cq_read`: `readfrom` with a null `src_addr`. -/
def psmx_cq_read (cqId : Nat) (mq : List MqOutcome) (st : PollState)
    (len : Nat) (buf_null : Bool) : ReadResult :=
  psmx_cq_readfrom cqId mq st len buf_null false

/-- `psmx_cq_readerr`: requires capacity for a full error entry; drains the
pending-error slot (the drained record is `free`d — pool abstraction) or
returns 0 when none is pending.  Returns the code, the new state and the
copied error entry. -/
def psmx_cq_readerr (cqId : Nat) (st : PollState) (len : Nat) :
    Int × PollState × Option Cqe :=
  if len < fi_cq_err_entry_size then (-FI_ETOOSMALL, st, none)
  else
    match (st.cqs cqId).pending_error with
    | some e =>
        ((fi_cq_err_entry_size : Int),
         { st with
             cqs := upd st.cqs cqId
               { st.cqs cqId with pending_error := none } },
         some e.cqe)
    | none => (0, st, none)

/-- `psmx_cq_write`: inject a synthetic completion.  Validates
`len ≥ entry_size` (`len` is the caller buffer's length, modelled as
`bytes.length`), `calloc`s a fresh zeroed record (so `error = false`,
`source = 0`), copies `entry_size` caller bytes verbatim into the `cqe`
union, and enqueues it.  The allocation-failure branch (`-ENOMEM`) is not
modelled.  Returns the code and the new state. -/
def psmx_cq_write (cqId : Nat) (st : PollState) (bytes : List Nat) :
    Int × PollState :=
  let cq := st.cqs cqId
  if bytes.length < cq.entry_size then (-FI_ETOOSMALL, st)
  else
    (((cq.entry_size : Int)),
     enqueueTo st cqId { error := false, cqe := .raw (bytes.take cq.entry_size), source := 0 })

/-! ### `psmx_cq_control` and the wait descriptor -/

/-- Wait-object variants (`enum fi_wait_obj`). -/
inductive WaitType where
  | wait_none
  | unspec
  | wait_set
  | fd
  | mut_cond
deriving DecidableEq, Repr

/-- `struct psmx_wait`: the variant tag and its per-variant payload
(external wait-set reference, pipe file descriptors, mutex/condition
pair). -/
structure WaitDesc where
  typ : WaitType
  wait_set : Nat
  fd0 : Nat
  fd1 : Nat
  mutex : Nat
  cond : Nat
deriving DecidableEq, Repr

/-- The wait-descriptor info a `FI_GETWAIT` control call reports through
`arg`. -/
inductive WaitInfo where
  | wait_set (ws : Nat)
  | fd (f : Nat)
  | mut_cond (m c : Nat)
deriving DecidableEq, Repr

/-- Result of `psmx_cq_control`: the return code and what was stored
through `arg` (when anything), or a crash from dereferencing a null wait
pointer. -/
inductive CtrlResult where
  | fault
  | ok (ret : Int) (arg : Option WaitInfo)
deriving DecidableEq, Repr

/-- The info the inner switch of `psmx_cq_control` (lines 572–583) selects
for a given wait descriptor: the wait-set reference, the readable pipe end
`fd[0]`, or the mutex/condition pair; other variants leave `arg`
untouched. -/
def waitDescInfo (w : WaitDesc) : Option WaitInfo :=
  match w.typ with
  | .wait_set => some (.wait_set w.wait_set)
  | .fd => some (.fd w.fd0)
  | .mut_cond => some (.mut_cond w.mutex w.cond)
  | _ => none

/-- `psmx_cq_control`: for `FI_GETWAIT` the guard at line 571 is
`if (!cq->wait)` — taken only when the wait pointer is null, whereupon the
inner switch immediately reads `cq->wait->type` through that null pointer
(undefined behaviour, modelled as `fault`); when a wait descriptor is
present the guard skips the inner switch, so `arg` is never written and
the call returns 0.  Any other command returns `-ENOSYS`. -/
def psmx_cq_control (wait : Option WaitDesc) (command : Nat) : CtrlResult :=
  if command = FI_GETWAIT then
    match wait with
    | none => .fault
    | some _ => .ok 0 none
  else
    .ok (-ENOSYS) none

/-! ### Projections on results -/

def PollResult.retCode : PollResult → Option Int
  | .ok c _ _ => some c
  | .fault _ => none

def PollResult.endState : PollResult → PollState
  | .ok _ _ s => s
  | .fault s => s

def PollResult.isFault : PollResult → Bool
  | .ok _ _ _ => false
  | .fault _ => true

def ReadResult.ret : ReadResult → Option Int
  | .ok r _ _ _ _ => some r
  | .fault _ => none

def ReadResult.copied : ReadResult → Option Cqe
  | .ok _ _ _ c _ => c
  | .fault _ => none

def ReadResult.state : ReadResult → PollState
  | .ok _ _ s _ _ => s
  | .fault s => s

def ReadResult.srcAddr : ReadResult → Option Nat
  | .ok _ _ _ _ a => a
  | .fault _ => none

/-! ### Iterated dequeue (for the FIFO property) -/

/-- `n` successive `psmx_cq_dequeue_event` calls: the records obtained, in
order, and the final queue. -/
def dequeueN : Nat → EventQueue → List CqEvent × EventQueue
  | 0, q => ([], q)
  | n + 1, q =>
      match psmx_cq_dequeue_event q with
      | none => ([], q)
      | some (e, q1) =>
          let r := dequeueN n q1
          (e :: r.1, r.2)

/-! ### Concrete fixtures used by witnesses and counterexamples -/

def mreq0 : MultiRecvReq := ⟨0, 0, 0, 0, 0, 0, 0, 0⟩

def ctxt0 : FiContext := ⟨.send, 0, 0, mreq0, 0, 0⟩

def ep0 : EpState :=
  ⟨0, 0, 0, none, none, none, none, none, none, false, false, false, false⟩

def emptyCq (fmt : CqFormat) : CqState :=
  ⟨fmt, entrySize fmt, EventQueue.empty, none, false⟩

def mr0 : MrState := ⟨none, none⟩

/-- A quiescent domain: default contexts and endpoints, empty tagged CQs,
zero counters, unbound memory regions. -/
def baseState : PollState :=
  ⟨fun _ => ctxt0, fun _ => ep0, fun _ => emptyCq .tagged, fun _ => 0,
   fun _ => mr0, 0, [], []⟩

/-! ### Queue lemmas -/

theorem enqueue_elems (q : EventQueue) (e : CqEvent) :
    (psmx_cq_enqueue_event q e).elems = q.elems ++ [e] := by
  cases h : q.elems with
  | nil => simp [psmx_cq_enqueue_event, h]
  | cons a l => simp [psmx_cq_enqueue_event, h]

theorem foldl_enqueue_elems (es : List CqEvent) (q : EventQueue) :
    (es.foldl psmx_cq_enqueue_event q).elems = q.elems ++ es := by
  induction es generalizing q with
  | nil => simp
  | cons e es ih => simp [List.foldl_cons, ih, enqueue_elems]

theorem dequeueN_all (l : List CqEvent) :
    dequeueN l.length ⟨l⟩ = (l, ⟨[]⟩) := by
  induction l with
  | nil => rfl
  | cons e r ih => simp [dequeueN, psmx_cq_dequeue_event, ih]

/-- **C8**: enqueuing N completion records into an empty event queue and
dequeuing N times yields the records in enqueue order, and the dequeue
that empties the queue leaves the head pointer and the tail pointer null
together. -/
theorem cq_fifo_order (es : List CqEvent) :
    (dequeueN es.length (es.foldl psmx_cq_enqueue_event EventQueue.empty)).1 = es ∧
    (dequeueN es.length (es.foldl psmx_cq_enqueue_event EventQueue.empty)).2.elems.head?
      = none ∧
    (dequeueN es.length (es.foldl psmx_cq_enqueue_event EventQueue.empty)).2.elems.getLast?
      = none := by
  have hfold := foldl_enqueue_elems es EventQueue.empty
  have hq : es.foldl psmx_cq_enqueue_event EventQueue.empty = ⟨es⟩ := by
    cases hc : es.foldl psmx_cq_enqueue_event EventQueue.empty with
    | mk l => rw [hc] at hfold; simpa [EventQueue.empty] using hfold
  rw [hq, dequeueN_all]
  simp

/-- **C7**: for each of the 4 non-error entry formats, a `write` of a valid
entry (caller buffer at least the entry size) followed by a `read` on an
otherwise empty CQ with no pending error and an idle MQ returns content
byte-identical to what was written, with both calls returning the entry
size. -/
theorem write_read_roundtrip (fmt : CqFormat) (st : PollState) (c : Nat)
    (bytes : List Nat) (cap : Nat)
    (_hfmt : (st.cqs c).format = fmt)
    (hsz : (st.cqs c).entry_size = entrySize fmt)
    (hq : (st.cqs c).event_queue = EventQueue.empty)
    (hpe : (st.cqs c).pending_error = none)
    (hlen : entrySize fmt ≤ bytes.length)
    (hcap : entrySize fmt ≤ cap) :
    (psmx_cq_write c st bytes).1 = (entrySize fmt : Int) ∧
    (psmx_cq_readfrom c [] (psmx_cq_write c st bytes).2 cap false false).ret
      = some (entrySize fmt : Int) ∧
    (psmx_cq_readfrom c [] (psmx_cq_write c st bytes).2 cap false false).copied
      = some (.raw (bytes.take (entrySize fmt))) := by
  simp [psmx_cq_write, psmx_cq_readfrom, psmx_cq_poll_mq, psmx_am_progress,
    enqueueTo, upd, psmx_cq_enqueue_event, psmx_cq_dequeue_event,
    EventQueue.empty, hq, hpe, hsz, Nat.not_lt.mpr hlen, Nat.not_lt.mpr hcap,
    ReadResult.ret, ReadResult.copied]

/-- A `write`-followed-by-`read` round trip in the msg format on CQ 0. -/
def stC7 : PollState := { baseState with cqs := fun _ => emptyCq .msg }

/-- Witness for C7 at the msg format with a 24-byte caller buffer. -/
theorem write_read_roundtrip_witness :
    (psmx_cq_write 0 stC7 (List.range 24)).1 = ((entrySize .msg : Nat) : Int) ∧
    (psmx_cq_readfrom 0 [] (psmx_cq_write 0 stC7 (List.range 24)).2 24 false false).ret
      = some ((entrySize .msg : Nat) : Int) ∧
    (psmx_cq_readfrom 0 [] (psmx_cq_write 0 stC7 (List.range 24)).2 24 false false).copied
      = some (.raw ((List.range 24).take (entrySize .msg))) :=
  write_read_roundtrip .msg stC7 0 (List.range 24) 24 rfl rfl rfl rfl
    (by decide) (by decide)

/-! ### Error-channel properties (C5, C6, C10) -/

/-- **C5**: once an error record produced for a CQ reaches the reader, an
ordinary read parks it in the pending-error slot, returning error-available
with no data; while the slot is occupied every ordinary read returns
error-available, copies nothing, and leaves the queue and the slot
untouched; a read-error with sufficient capacity copies the error entry
out, clears the slot and returns the error-entry size; a further
read-error finds no pending error and returns zero; and after the drain an
ordinary read resumes delivering the normal queued events (here with an
idle MQ, so the two progress sources add nothing). -/
theorem error_exclusivity (st st2 : PollState) (c : Nat) (e ev eev : CqEvent)
    (rest rest2 : List CqEvent) (cap cap2 : Nat)
    (hpe : (st.cqs c).pending_error = some e)
    (hev : (st.cqs c).event_queue.elems = ev :: rest)
    (heverr : ev.error = false)
    (hcap : (st.cqs c).entry_size ≤ cap)
    (hcap2 : fi_cq_err_entry_size ≤ cap2)
    (hpe2 : (st2.cqs c).pending_error = none)
    (hev2 : (st2.cqs c).event_queue.elems = eev :: rest2)
    (heverr2 : eev.error = true)
    (hcap3 : (st2.cqs c).entry_size ≤ cap) :
    (psmx_cq_readfrom c [] st2 cap false false).ret = some (-FI_EAVAIL) ∧
    (psmx_cq_readfrom c [] st2 cap false false).copied = none ∧
    ((psmx_cq_readfrom c [] st2 cap false false).state.cqs c).pending_error
      = some eev ∧
    (psmx_cq_readfrom c [] st cap false false).ret = some (-FI_EAVAIL) ∧
    (psmx_cq_readfrom c [] st cap false false).copied = none ∧
    (((psmx_cq_readfrom c [] st cap false false).state.cqs c).event_queue.elems
      = ev :: rest) ∧
    (((psmx_cq_readfrom c [] st cap false false).state.cqs c).pending_error = some e) ∧
    (psmx_cq_readerr c (psmx_cq_readfrom c [] st cap false false).state cap2).1
      = (fi_cq_err_entry_size : Int) ∧
    (psmx_cq_readerr c (psmx_cq_readfrom c [] st cap false false).state cap2).2.2
      = some e.cqe ∧
    ((((psmx_cq_readerr c (psmx_cq_readfrom c [] st cap false false).state cap2).2.1).cqs c).pending_error
      = none) ∧
    (psmx_cq_readerr c
      (psmx_cq_readerr c (psmx_cq_readfrom c [] st cap false false).state cap2).2.1
      cap2).1 = 0 ∧
    (psmx_cq_readfrom c []
      (psmx_cq_readerr c (psmx_cq_readfrom c [] st cap false false).state cap2).2.1
      cap false false).ret = some ((st.cqs c).entry_size : Int) ∧
    (psmx_cq_readfrom c []
      (psmx_cq_readerr c (psmx_cq_readfrom c [] st cap false false).state cap2).2.1
      cap false false).copied = some ev.cqe := by
  simp [psmx_cq_readfrom, psmx_cq_readerr, psmx_cq_poll_mq, psmx_am_progress,
    psmx_cq_dequeue_event, enqueueTo, upd, hpe, hev, heverr, hpe2, hev2, heverr2,
    Nat.not_lt.mpr hcap, Nat.not_lt.mpr hcap2, Nat.not_lt.mpr hcap3,
    ReadResult.ret, ReadResult.copied, ReadResult.state]

def errEvent0 : CqEvent := ⟨true, .err 9 (-5) 23 0 4 0, 0⟩

def okEvent0 : CqEvent := ⟨false, .tagged 1 2 0 16 0 7, 0⟩

/-- A CQ with an occupied pending-error slot and one normal queued event. -/
def stC5 : PollState :=
  { baseState with
      cqs := fun _ =>
        { emptyCq .tagged with
            pending_error := some errEvent0, event_queue := ⟨[okEvent0]⟩ } }

/-- A CQ with an error record at the head of its FIFO and a free
pending-error slot. -/
def stPark : PollState :=
  { baseState with
      cqs := fun _ => { emptyCq .tagged with event_queue := ⟨[errEvent0]⟩ } }

/-- Witness for C5 on `stC5` and `stPark`. -/
theorem error_exclusivity_witness :
    (psmx_cq_readfrom 0 [] stPark 48 false false).ret = some (-FI_EAVAIL) ∧
    (psmx_cq_readfrom 0 [] stPark 48 false false).copied = none ∧
    ((psmx_cq_readfrom 0 [] stPark 48 false false).state.cqs 0).pending_error
      = some errEvent0 ∧
    (psmx_cq_readfrom 0 [] stC5 48 false false).ret = some (-FI_EAVAIL) ∧
    (psmx_cq_readfrom 0 [] stC5 48 false false).copied = none ∧
    (((psmx_cq_readfrom 0 [] stC5 48 false false).state.cqs 0).event_queue.elems
      = okEvent0 :: []) ∧
    (((psmx_cq_readfrom 0 [] stC5 48 false false).state.cqs 0).pending_error
      = some errEvent0) ∧
    (psmx_cq_readerr 0 (psmx_cq_readfrom 0 [] stC5 48 false false).state 72).1
      = (fi_cq_err_entry_size : Int) ∧
    (psmx_cq_readerr 0 (psmx_cq_readfrom 0 [] stC5 48 false false).state 72).2.2
      = some errEvent0.cqe ∧
    ((((psmx_cq_readerr 0 (psmx_cq_readfrom 0 [] stC5 48 false false).state 72).2.1).cqs 0).pending_error
      = none) ∧
    (psmx_cq_readerr 0
      (psmx_cq_readerr 0 (psmx_cq_readfrom 0 [] stC5 48 false false).state 72).2.1
      72).1 = 0 ∧
    (psmx_cq_readfrom 0 []
      (psmx_cq_readerr 0 (psmx_cq_readfrom 0 [] stC5 48 false false).state 72).2.1
      48 false false).ret = some ((stC5.cqs 0).entry_size : Int) ∧
    (psmx_cq_readfrom 0 []
      (psmx_cq_readerr 0 (psmx_cq_readfrom 0 [] stC5 48 false false).state 72).2.1
      48 false false).copied = some okEvent0.cqe :=
  error_exclusivity stC5 stPark 0 errEvent0 okEvent0 errEvent0 [] [] 48 72
    rfl rfl rfl (by decide) (by decide) rfl rfl rfl (by decide)

/-- A CQ whose pending-error slot is occupied and whose FIFO is empty. -/
def stPend : PollState :=
  { baseState with
      cqs := fun _ => { emptyCq .tagged with pending_error := some errEvent0 } }

/-- Counterexample to C6 as stated: a read with capacity 0 (strictly below
the 48-byte entry size) on a CQ with a pending error returns
error-available, not too-small — the pending-error check precedes the
capacity check. -/
theorem read_too_small_counterexample :
    (psmx_cq_readfrom 0 [] stPend 0 false false).ret = some (-FI_EAVAIL) ∧
    (0 : Nat) < (stPend.cqs 0).entry_size ∧
    (-FI_EAVAIL : Int) ≠ -FI_ETOOSMALL := by
  refine ⟨rfl, by decide, by decide⟩

/-- **C6 (amended)**: provided no error is pending, a read with capacity
strictly below the entry size returns too-small, dequeues no record,
copies no data and leaves the pending-error slot untouched (with an idle
MQ the queue is unchanged altogether); a pending error takes precedence
and yields error-available instead. -/
theorem read_too_small (st : PollState) (c : Nat) (cap : Nat)
    (hpe : (st.cqs c).pending_error = none)
    (hcap : cap < (st.cqs c).entry_size) :
    (psmx_cq_readfrom c [] st cap false false).ret = some (-FI_ETOOSMALL) ∧
    (psmx_cq_readfrom c [] st cap false false).copied = none ∧
    ((psmx_cq_readfrom c [] st cap false false).state.cqs c).event_queue
      = (st.cqs c).event_queue ∧
    ((psmx_cq_readfrom c [] st cap false false).state.cqs c).pending_error = none := by
  simp [psmx_cq_readfrom, psmx_cq_poll_mq, psmx_am_progress, upd, hpe, hcap,
    ReadResult.ret, ReadResult.copied, ReadResult.state]

/-- Witness for C6 (amended) at capacity 0 on a quiescent tagged CQ. -/
theorem read_too_small_witness :
    (psmx_cq_readfrom 0 [] baseState 0 false false).ret = some (-FI_ETOOSMALL) ∧
    (psmx_cq_readfrom 0 [] baseState 0 false false).copied = none ∧
    ((psmx_cq_readfrom 0 [] baseState 0 false false).state.cqs 0).event_queue
      = (baseState.cqs 0).event_queue ∧
    ((psmx_cq_readfrom 0 [] baseState 0 false false).state.cqs 0).pending_error
      = none :=
  read_too_small baseState 0 0 rfl (by decide)

/-- **C10**: a record injected through `write` is `calloc`-zeroed before
the caller's bytes are copied into its entry payload, so its error flag is
unset; consequently, on a CQ whose queued records all have the error flag
unset (as write-injected ones do) and whose pending-error slot is empty, a
read delivers the head record as ordinary data (returning the entry size)
and the pending-error slot stays empty. -/
theorem write_injected_never_error (st : PollState) (c : Nat)
    (bytes : List Nat) (ev : CqEvent) (rest : List CqEvent) (cap : Nat)
    (hlen : (st.cqs c).entry_size ≤ bytes.length)
    (hpe : (st.cqs c).pending_error = none)
    (hev : (st.cqs c).event_queue.elems = ev :: rest)
    (heverr : ev.error = false)
    (hcap : (st.cqs c).entry_size ≤ cap) :
    (((psmx_cq_write c st bytes).2.cqs c).event_queue.elems
      = (st.cqs c).event_queue.elems
        ++ [⟨false, .raw (bytes.take (st.cqs c).entry_size), 0⟩]) ∧
    (psmx_cq_readfrom c [] st cap false false).ret
      = some ((st.cqs c).entry_size : Int) ∧
    (psmx_cq_readfrom c [] st cap false false).copied = some ev.cqe ∧
    ((psmx_cq_readfrom c [] st cap false false).state.cqs c).pending_error
      = none := by
  constructor
  · simp [psmx_cq_write, Nat.not_lt.mpr hlen, enqueueTo, upd, enqueue_elems]
  · simp [psmx_cq_readfrom, psmx_cq_poll_mq, psmx_am_progress, upd, hpe, hev,
      heverr, psmx_cq_dequeue_event, Nat.not_lt.mpr hcap,
      ReadResult.ret, ReadResult.copied, ReadResult.state]

/-- A quiescent tagged CQ holding one write-injected record. -/
def stC10 : PollState := (psmx_cq_write 0 baseState (List.range 48)).2

/-- Witness for C10: inject one 48-byte record into a quiescent tagged CQ
and read it back. -/
theorem write_injected_never_error_witness :
    (((psmx_cq_write 0 stC10 (List.range 48)).2.cqs 0).event_queue.elems
      = (stC10.cqs 0).event_queue.elems
        ++ [⟨false, .raw ((List.range 48).take (stC10.cqs 0).entry_size), 0⟩]) ∧
    (psmx_cq_readfrom 0 [] stC10 48 false false).ret
      = some ((stC10.cqs 0).entry_size : Int) ∧
    (psmx_cq_readfrom 0 [] stC10 48 false false).copied
      = some (Cqe.raw ((List.range 48).take 48)) ∧
    ((psmx_cq_readfrom 0 [] stC10 48 false false).state.cqs 0).pending_error
      = none :=
  write_injected_never_error stC10 0 (List.range 48)
    ⟨false, .raw ((List.range 48).take 48), 0⟩ [] 48
    (by decide) rfl (by decide) rfl (by decide)

/-! ### `psmx_cq_control` (C9) -/

/-- A wait descriptor of the file-descriptor variant (readable end 5). -/
def fdWait : WaitDesc := ⟨.fd, 0, 5, 6, 0, 0⟩

/-- **C9 (code bug)**: the guard of `FI_GETWAIT` is inverted
(`if (!cq->wait)`).  For a CQ opened *with* a wait descriptor the inner
switch — which would report the descriptor's info, here the readable file
descriptor 5 — is skipped, so the call returns 0 without storing anything
through `arg`; for a CQ without one it dereferences the null wait pointer.
Any other command returns not-supported. -/
theorem control_getwait_bug :
    psmx_cq_control (some fdWait) FI_GETWAIT = .ok 0 none ∧
    waitDescInfo fdWait = some (.fd 5) ∧
    psmx_cq_control none FI_GETWAIT = .fault ∧
    psmx_cq_control (some fdWait) 9 = .ok (-ENOSYS) none := by
  decide

/-! ### One-sided completion routing (C4) -/

/-- A domain with one remote-write completion pending: the fabric context
is of kind `remote_write` with immediate data 77, and memory region 0 is
bound to CQ 0 and counter 0. -/
def stC4 : PollState :=
  { baseState with
      ctxts := fun _ => ⟨.remote_write, 0, 0, mreq0, 77, 0⟩,
      mrs := fun _ => ⟨some 0, some 0⟩ }

def statusC4 : PsmStatus := ⟨0, 8, 8, 3, 0⟩

/-- **C4 (code bug)**: draining a remote-write completion whose target
memory region has a bound counter crashes instead of incrementing that
counter: the event is first enqueued to the memory region's bound CQ, but
the counter bump passes the null `tmp_cntr` — not `mr->cntr` — to the add
operation (`mr->cntr->cntr.ops->add(&tmp_cntr->cntr, 1)` with `tmp_cntr ==
NULL`), so the poll faults with the counter still at 0 and never returns
success. -/
theorem remote_write_cntr_bug :
    (psmx_cq_poll_mq none [.ok statusC4] stC4).isFault = true ∧
    ((psmx_cq_poll_mq none [.ok statusC4] stC4).endState.cqs 0).event_queue.elems
      = [psmx_cq_create_event_from_status (stC4.cqs 0) stC4.ctxts statusC4 77] ∧
    (psmx_cq_poll_mq none [.ok statusC4] stC4).endState.cntrs 0 = 0 := by
  refine ⟨rfl, ?_, rfl⟩
  simp [psmx_cq_poll_mq, psmx_cq_poll_mq_step, stC4, cntrAdd, enqueueTo, upd,
    enqueue_elems, PollResult.endState, baseState, emptyCq, EventQueue.empty,
    psmx_cq_enqueue_event]

/-! ### Return discipline of the progress driver (C3) -/

theorem pollAfterSwitch_no_cq (st : PollState) (status : PsmStatus)
    (tmp_cntr : Option Nat) :
    ∃ st2, pollAfterSwitch none st status none tmp_cntr false = .ret 1 st2 ∧
      st2.cqs = st.cqs := by
  cases tmp_cntr with
  | none => exact ⟨st, by simp [pollAfterSwitch, cntrAdd], rfl⟩
  | some i =>
      refine ⟨{ st with cntrs := upd st.cntrs i (st.cntrs i + 1) }, ?_, rfl⟩
      simp [pollAfterSwitch, cntrAdd]

theorem pollAfterSwitch_ret1 (cqOpt : Option Nat) (st : PollState)
    (status : PsmStatus) (tmp_cq tmp_cntr : Option Nat) (mr : Bool)
    (h : (cqOpt.isNone || tmp_cq == cqOpt) = true) :
    ∃ st3, pollAfterSwitch cqOpt st status tmp_cq tmp_cntr mr = .ret 1 st3 := by
  simp only [pollAfterSwitch, h, if_true]
  exact ⟨_, rfl⟩

theorem pollAfterSwitch_next (cqOpt : Option Nat) (st : PollState)
    (status : PsmStatus) (tmp_cq tmp_cntr : Option Nat) (mr : Bool)
    (h : (cqOpt.isNone || tmp_cq == cqOpt) = false) :
    ∃ st3, pollAfterSwitch cqOpt st status tmp_cq tmp_cntr mr = .next st3 := by
  simp only [pollAfterSwitch, h, Bool.false_eq_true, if_false]
  exact ⟨_, rfl⟩

/-- Draining one ready completion whose processing does not crash returns
1 exactly when the completion's routed CQ matches the CQ of interest (or
none was specified). -/
theorem step_ret1 (cqOpt : Option Nat) (st : PollState) (status : PsmStatus)
    (hnf : stepFaults st status = false)
    (hm : (cqOpt.isNone || routedCq st status == cqOpt) = true) :
    ∃ st2, psmx_cq_poll_mq_step cqOpt st status = .ret 1 st2 := by
  cases hty : (st.ctxts status.context).typ <;>
    simp only [psmx_cq_poll_mq_step, hty] <;>
    first
    | exact pollAfterSwitch_ret1 _ _ _ _ _ _ (by simpa only [routedCq, hty] using hm)
    | (have hcn : ((st.mrs (st.ctxts status.context).user).cntr).isSome = false := by
         simpa only [stepFaults, hty] using hnf
       have hm2 : (cqOpt.isNone
           || (st.mrs (st.ctxts status.context).user).cq == cqOpt) = true := by
         simpa only [routedCq, hty] using hm
       simp only [hcn, hm2, Bool.false_eq_true, if_false, if_true]
       exact ⟨_, rfl⟩)

/-- Draining one ready completion whose processing does not crash keeps
draining when the completion's routed CQ does not match the CQ of
interest. -/
theorem step_next (cqOpt : Option Nat) (st : PollState) (status : PsmStatus)
    (hnf : stepFaults st status = false)
    (hm : (cqOpt.isNone || routedCq st status == cqOpt) = false) :
    ∃ st2, psmx_cq_poll_mq_step cqOpt st status = .next st2 := by
  cases hty : (st.ctxts status.context).typ <;>
    simp only [psmx_cq_poll_mq_step, hty] <;>
    first
    | exact pollAfterSwitch_next _ _ _ _ _ _ (by simpa only [routedCq, hty] using hm)
    | (have hcn : ((st.mrs (st.ctxts status.context).user).cntr).isSome = false := by
         simpa only [stepFaults, hty] using hnf
       have hm2 : (cqOpt.isNone
           || (st.mrs (st.ctxts status.context).user).cq == cqOpt) = false := by
         simpa only [routedCq, hty] using hm
       simp only [hcn, hm2, Bool.false_eq_true, if_false]
       exact ⟨_, rfl⟩)

/-- Draining a completion that does crash (one-sided kind with a bound
counter) yields the fault outcome. -/
theorem step_fault (cqOpt : Option Nat) (st : PollState) (status : PsmStatus)
    (hf : stepFaults st status = true) :
    ∃ st2, psmx_cq_poll_mq_step cqOpt st status = .fault st2 := by
  cases hty : (st.ctxts status.context).typ <;>
    first
    | (simp only [stepFaults, hty] at hf; exact absurd hf (by decide))
    | (have hcn : ((st.mrs (st.ctxts status.context).user).cntr).isSome = true := by
         simpa only [stepFaults, hty] using hf
       simp only [psmx_cq_poll_mq_step, hty, hcn, cntrAdd, if_true]
       exact ⟨_, rfl⟩)

/-- **C3 (amended)**: the drain loop returns 0 when the MQ reports nothing
ready, and a negative code on a fatal MQ failure, aborting the loop.  For
every drained completion whose processing does not crash the driver (a
one-sided completion with a bound counter faults on the null `tmp_cntr` —
the C4 bug), the call returns 1 as soon as the completion's routed CQ
equals the CQ of interest or no CQ of interest was specified, and keeps
draining otherwise; when no CQ of interest is specified this returns 1
even for completions that produce no event for any CQ (shown for a
no-completion send, whose processing leaves every CQ untouched). -/
theorem poll_mq_return_discipline :
    (∀ (cqOpt : Option Nat) (st : PollState),
        psmx_cq_poll_mq cqOpt [] st = .ok 0 [] st) ∧
    (∀ (cqOpt : Option Nat) (st : PollState) (e : Nat) (rest : List MqOutcome),
        0 < e →
        (psmx_cq_poll_mq cqOpt (.fatal e :: rest) st).retCode
          = some (psmx_errno e) ∧ psmx_errno e < 0) ∧
    (∀ (cqOpt : Option Nat) (st : PollState) (status : PsmStatus)
        (rest : List MqOutcome),
        stepFaults st status = false →
        (cqOpt.isNone || routedCq st status == cqOpt) = true →
        (psmx_cq_poll_mq cqOpt (.ok status :: rest) st).retCode = some 1) ∧
    (∀ (cqOpt : Option Nat) (st : PollState) (status : PsmStatus)
        (rest : List MqOutcome),
        stepFaults st status = false →
        (cqOpt.isNone || routedCq st status == cqOpt) = false →
        ∃ st2, psmx_cq_poll_mq cqOpt (.ok status :: rest) st
          = psmx_cq_poll_mq cqOpt rest st2) ∧
    (∀ (cqOpt : Option Nat) (st : PollState) (status : PsmStatus)
        (rest : List MqOutcome),
        stepFaults st status = true →
        (psmx_cq_poll_mq cqOpt (.ok status :: rest) st).isFault = true) ∧
    (∀ (st : PollState) (status : PsmStatus),
        (st.ctxts status.context).typ = .nocomp_send →
        (psmx_cq_poll_mq none [.ok status] st).retCode = some 1 ∧
        (psmx_cq_poll_mq none [.ok status] st).endState.cqs = st.cqs) := by
  refine ⟨fun cqOpt st => rfl, fun cqOpt st e rest he => ⟨rfl, ?_⟩, ?_, ?_, ?_, ?_⟩
  · simp [psmx_errno]
    exact_mod_cast he
  · intro cqOpt st status rest hnf hm
    obtain ⟨st2, hs⟩ := step_ret1 cqOpt st status hnf hm
    simp [psmx_cq_poll_mq, hs, PollResult.retCode]
  · intro cqOpt st status rest hnf hm
    obtain ⟨st2, hs⟩ := step_next cqOpt st status hnf hm
    exact ⟨st2, by simp [psmx_cq_poll_mq, hs]⟩
  · intro cqOpt st status rest hf
    obtain ⟨st2, hs⟩ := step_fault cqOpt st status hf
    simp [psmx_cq_poll_mq, hs, PollResult.isFault]
  · intro st status h
    have hstep :
        ∃ st2, psmx_cq_poll_mq_step none st status = .ret 1 st2 ∧
          st2.cqs = st.cqs := by
      simp only [psmx_cq_poll_mq_step, h]
      exact pollAfterSwitch_no_cq _ status _
    obtain ⟨st2, h1, h2⟩ := hstep
    simp [psmx_cq_poll_mq, h1, PollResult.retCode, PollResult.endState, h2]

/-- A domain whose pending completion carries a no-completion send
context (no CQ is ever routed for it). -/
def stC3 : PollState :=
  { baseState with ctxts := fun _ => ⟨.nocomp_send, 0, 0, mreq0, 0, 0⟩ }

/-- Counterexample to C3 as stated: with no CQ of interest, draining one
no-completion send produces no event for any CQ (every queue is untouched
— here all empty) yet the poll returns 1, so "returns 1 exactly when an
event has been produced" fails. -/
theorem poll_return_without_event_counterexample :
    (psmx_cq_poll_mq none [.ok ⟨0, 0, 0, 0, 0⟩] stC3).retCode = some 1 ∧
    (psmx_cq_poll_mq none [.ok ⟨0, 0, 0, 0, 0⟩] stC3).endState.cqs = stC3.cqs ∧
    (stC3.cqs 0).event_queue.elems = [] := by
  exact ⟨rfl, rfl, rfl⟩

/-- Witness for C3 (amended): the empty-MQ, fatal-error, return-1,
keep-draining, fault and no-event-return cases at concrete inputs. -/
theorem poll_mq_return_discipline_witness :
    psmx_cq_poll_mq none [] baseState = .ok 0 [] baseState ∧
    ((psmx_cq_poll_mq none [.fatal 3] baseState).retCode = some (psmx_errno 3) ∧
      psmx_errno 3 < 0) ∧
    (psmx_cq_poll_mq none [.ok ⟨0, 0, 0, 0, 0⟩] stC3).retCode = some 1 ∧
    (∃ st2, psmx_cq_poll_mq (some 5) [.ok ⟨0, 0, 0, 0, 0⟩] stC3
      = psmx_cq_poll_mq (some 5) [] st2) ∧
    (psmx_cq_poll_mq none [.ok statusC4] stC4).isFault = true ∧
    ((psmx_cq_poll_mq none [.ok ⟨0, 0, 0, 0, 0⟩] stC3).retCode = some 1 ∧
      (psmx_cq_poll_mq none [.ok ⟨0, 0, 0, 0, 0⟩] stC3).endState.cqs = stC3.cqs) :=
  ⟨poll_mq_return_discipline.1 none baseState,
   poll_mq_return_discipline.2.1 none baseState 3 [] (by decide),
   poll_mq_return_discipline.2.2.1 none stC3 ⟨0, 0, 0, 0, 0⟩ [] rfl rfl,
   poll_mq_return_discipline.2.2.2.1 (some 5) stC3 ⟨0, 0, 0, 0, 0⟩ [] rfl rfl,
   poll_mq_return_discipline.2.2.2.2.1 none stC4 statusC4 [] rfl,
   poll_mq_return_discipline.2.2.2.2.2 stC3 ⟨0, 0, 0, 0, 0⟩ rfl⟩

/-! ### The multi-recv continuation (C1, C2) -/

/-- **C2 (amended)**: on a partial multi-recv completion with remaining
capacity still admitting a minimum-size chunk, the progress driver re-arms
a new receive at the advanced offset, for the remaining length, with the
same tag/mask/flags, keeps the tracking record alive with its cursor
advanced — and, far from staying silent, also enqueues an ordinary
completion event for the partial chunk to the receive CQ, so partial
completions are user-visible. -/
theorem multi_recv_rearm (st : PollState) (cid eId u w pr c : Nat)
    (req : MultiRecvReq) (nb ml mtag : Nat)
    (hctx : st.ctxts cid = ⟨.multi_recv, eId, u, req, w, pr⟩)
    (hcq : (st.eps eId).recv_cq = some c)
    (hre : req.offset + nb + req.min_buf_size ≤ req.len) :
    (psmx_cq_poll_mq none [.ok ⟨0, nb, ml, mtag, cid⟩] st).retCode = some 1 ∧
    ((psmx_cq_poll_mq none [.ok ⟨0, nb, ml, mtag, cid⟩] st).endState.cqs c).event_queue.elems
      = (st.cqs c).event_queue.elems
        ++ [psmx_cq_create_event_from_status (st.cqs c) st.ctxts ⟨0, nb, ml, mtag, cid⟩ 0] ∧
    (psmx_cq_poll_mq none [.ok ⟨0, nb, ml, mtag, cid⟩] st).endState.posted
      = st.posted
        ++ [⟨req.tag, req.tagsel, req.flag, req.buf + (req.offset + nb),
             req.len - (req.offset + nb), cid⟩] ∧
    (psmx_cq_poll_mq none [.ok ⟨0, nb, ml, mtag, cid⟩] st).endState.freed = st.freed ∧
    ((psmx_cq_poll_mq none [.ok ⟨0, nb, ml, mtag, cid⟩] st).endState.ctxts cid).mreq.offset
      = req.offset + nb := by
  rcases hcn : (st.eps eId).recv_cntr with _ | i <;>
    simp [psmx_cq_poll_mq, psmx_cq_poll_mq_step, pollAfterSwitch, hctx, hcq, hcn,
      hre, cntrAdd, enqueueTo, upd, enqueue_elems,
      PollResult.retCode, PollResult.endState]

/-- A multi-recv buffer of length 100 with minimum chunk 20 at offset 0,
owned by endpoint 0 whose receive CQ is CQ 0. -/
def reqC2 : MultiRecvReq := ⟨11, 22, 33, 1000, 0, 100, 20, 55⟩

def stC2 : PollState :=
  { baseState with
      ctxts := fun _ => ⟨.multi_recv, 0, 0, reqC2, 0, 0⟩,
      eps := fun _ => { ep0 with recv_cq := some 0 } }

def statusC2 : PsmStatus := ⟨0, 10, 10, 7, 0⟩

/-- Counterexample to C2 as stated: a 10-byte partial completion of the
multi-recv buffer (re-arm case, since 0 + 10 + 20 ≤ 100) enqueues one
event to the receive CQ — an intermediate completion visible to a reader
— where the claim promises no user-visible event. -/
theorem multi_recv_silent_rearm_counterexample :
    (psmx_cq_poll_mq none [.ok statusC2] stC2).retCode = some 1 ∧
    ((psmx_cq_poll_mq none [.ok statusC2] stC2).endState.cqs 0).event_queue.elems.length
      = 1 ∧
    reqC2.offset + statusC2.nbytes + reqC2.min_buf_size ≤ reqC2.len := by
  exact ⟨rfl, rfl, by decide⟩

/-- Witness for C2 (amended) on `stC2`. -/
theorem multi_recv_rearm_witness :
    (psmx_cq_poll_mq none [.ok ⟨0, 10, 10, 7, 0⟩] stC2).retCode = some 1 ∧
    ((psmx_cq_poll_mq none [.ok ⟨0, 10, 10, 7, 0⟩] stC2).endState.cqs 0).event_queue.elems
      = (stC2.cqs 0).event_queue.elems
        ++ [psmx_cq_create_event_from_status (stC2.cqs 0) stC2.ctxts ⟨0, 10, 10, 7, 0⟩ 0] ∧
    (psmx_cq_poll_mq none [.ok ⟨0, 10, 10, 7, 0⟩] stC2).endState.posted
      = stC2.posted
        ++ [⟨reqC2.tag, reqC2.tagsel, reqC2.flag, reqC2.buf + (reqC2.offset + 10),
             reqC2.len - (reqC2.offset + 10), 0⟩] ∧
    (psmx_cq_poll_mq none [.ok ⟨0, 10, 10, 7, 0⟩] stC2).endState.freed = stC2.freed ∧
    ((psmx_cq_poll_mq none [.ok ⟨0, 10, 10, 7, 0⟩] stC2).endState.ctxts 0).mreq.offset
      = reqC2.offset + 10 :=
  multi_recv_rearm stC2 0 0 0 0 0 0 reqC2 10 10 7 rfl rfl (by decide)

/-- **C1 (amended)**: when a multi-recv completion leaves remaining
capacity too small for another minimum-size chunk, the progress driver
enqueues — after the ordinary completion event for the final chunk — one
final `FI_MULTI_RECV`-flagged event whose length field equals the
*buffer's total length* (its data field holding the unconsumed remainder),
and frees the multi-recv tracking record. -/
theorem multi_recv_finalize (st : PollState) (cid eId u w pr c : Nat)
    (req : MultiRecvReq) (nb ml mtag : Nat)
    (hctx : st.ctxts cid = ⟨.multi_recv, eId, u, req, w, pr⟩)
    (hcq : (st.eps eId).recv_cq = some c)
    (hfmt : (st.cqs c).format = .tagged)
    (hfin : req.len < req.offset + nb + req.min_buf_size) :
    (psmx_cq_poll_mq none [.ok ⟨0, nb, ml, mtag, cid⟩] st).retCode = some 1 ∧
    ((psmx_cq_poll_mq none [.ok ⟨0, nb, ml, mtag, cid⟩] st).endState.cqs c).event_queue.elems
      = (st.cqs c).event_queue.elems
        ++ [psmx_cq_create_event_from_status (st.cqs c) st.ctxts ⟨0, nb, ml, mtag, cid⟩ 0,
            ⟨false, .tagged req.context req.buf FI_MULTI_RECV req.len
                (req.len - (req.offset + nb)) 0, 0⟩] ∧
    (psmx_cq_poll_mq none [.ok ⟨0, nb, ml, mtag, cid⟩] st).endState.freed
      = st.freed ++ [cid] ∧
    (psmx_cq_poll_mq none [.ok ⟨0, nb, ml, mtag, cid⟩] st).endState.posted
      = st.posted := by
  have hnot : ¬ (req.offset + nb + req.min_buf_size ≤ req.len) := Nat.not_le.mpr hfin
  rcases hcn : (st.eps eId).recv_cntr with _ | i <;>
    simp [psmx_cq_poll_mq, psmx_cq_poll_mq_step, pollAfterSwitch, hctx, hcq, hcn,
      hnot, hfmt, cntrAdd, enqueueTo, upd, enqueue_elems, psmx_cq_create_event,
      PollResult.retCode, PollResult.endState]

/-- A multi-recv buffer of length 100 with minimum chunk 30 at offset 0. -/
def reqC1 : MultiRecvReq := ⟨11, 22, 33, 1000, 0, 100, 30, 55⟩

def stC1 : PollState :=
  { baseState with
      ctxts := fun _ => ⟨.multi_recv, 0, 0, reqC1, 0, 0⟩,
      eps := fun _ => { ep0 with recv_cq := some 0 } }

def statusC1 : PsmStatus := ⟨0, 80, 80, 7, 0⟩

/-- Counterexample to C1 as stated: an 80-byte completion finalizes the
buffer (80 + 30 > 100); the final `FI_MULTI_RECV` event carries length
field 100 — the buffer's total length — while the total bytes consumed are
`reqC1.offset + statusC1.nbytes = 80 ≠ 100`. -/
theorem multi_recv_final_len_counterexample :
    ((psmx_cq_poll_mq none [.ok statusC1] stC1).endState.cqs 0).event_queue.elems.getLast?
      = some ⟨false, .tagged 55 1000 FI_MULTI_RECV 100 20 0, 0⟩ ∧
    reqC1.len < reqC1.offset + statusC1.nbytes + reqC1.min_buf_size ∧
    (100 : Nat) ≠ reqC1.offset + statusC1.nbytes := by
  exact ⟨rfl, by decide, by decide⟩

/-- Witness for C1 (amended) on `stC1`. -/
theorem multi_recv_finalize_witness :
    (psmx_cq_poll_mq none [.ok ⟨0, 80, 80, 7, 0⟩] stC1).retCode = some 1 ∧
    ((psmx_cq_poll_mq none [.ok ⟨0, 80, 80, 7, 0⟩] stC1).endState.cqs 0).event_queue.elems
      = (stC1.cqs 0).event_queue.elems
        ++ [psmx_cq_create_event_from_status (stC1.cqs 0) stC1.ctxts ⟨0, 80, 80, 7, 0⟩ 0,
            ⟨false, .tagged reqC1.context reqC1.buf FI_MULTI_RECV reqC1.len
                (reqC1.len - (reqC1.offset + 80)) 0, 0⟩] ∧
    (psmx_cq_poll_mq none [.ok ⟨0, 80, 80, 7, 0⟩] stC1).endState.freed
      = stC1.freed ++ [0] ∧
    (psmx_cq_poll_mq none [.ok ⟨0, 80, 80, 7, 0⟩] stC1).endState.posted
      = stC1.posted :=
  multi_recv_finalize stC1 0 0 0 0 0 0 reqC1 80 80 7 rfl rfl rfl (by decide)

end Psmx
